import Mathlib

/-!
Verification of the Jan-Sunwai-AI civic-complaint decision engine.

Shallow embedding of the core decision code:
* `backend/app/category_utils.py` — canonical categories and label canonicalization
* `backend/app/rule_engine.py`    — weighted keyword rule scoring
* `backend/app/classifier.py`     — decision fusion pipeline (`CivicClassifier.classify`)
* `backend/app/authorities.py`    — authority routing and escalation data
* `backend/app/routers/complaints.py` — escalation endpoint core logic

Strings are modelled as Lean `String`s; Python floats as rationals (`ℚ`);
Python substring containment (`a in b`) as contiguous-sublist search on
character lists; external effects (file system, model calls, `json.loads`)
as explicit oracle inputs in a `World` record.
-/

namespace JanSunwai

/-! ## Definitions: the embedded data model and operations -/

/-- Python whitespace class `\s` over ASCII: space and the control
characters 9–13 (tab, newline, vertical tab, form feed, carriage return). -/
def pyIsSpace (c : Char) : Bool :=
  c.toNat = 32 || (9 ≤ c.toNat && c.toNat ≤ 13)

/-- `needle` occurs as a contiguous sublist of the list (Python `needle in hay`).
The empty needle occurs in every list, as in Python. -/
def sublistB (n : List Char) : List Char → Bool
  | [] => n.isEmpty
  | c :: t => n.isPrefixOf (c :: t) || sublistB n t

/-- Python `needle in hay` on strings: contiguous substring containment. -/
def strIn (needle hay : String) : Bool :=
  sublistB needle.data hay.data

/-- Python `str.lower()` (ASCII-relevant part). -/
def lowerStr (s : String) : String :=
  String.mk (s.data.map Char.toLower)

/-- Python `str.strip()`: drop whitespace from both ends. -/
def pyStrip (l : List Char) : List Char :=
  ((l.dropWhile pyIsSpace).reverse.dropWhile pyIsSpace).reverse

/-- Collapse consecutive spaces to a single space (the effect of
`re.sub(r"\s+", " ", ·)` after all whitespace has been mapped to `' '`). -/
def squeezeSpaces : List Char → List Char
  | [] => []
  | [c] => [c]
  | a :: b :: t =>
    if a = ' ' && b = ' ' then squeezeSpaces (b :: t)
    else a :: squeezeSpaces (b :: t)

/-- `category_utils._normalize`: strip, lowercase, underscores to spaces,
collapse whitespace runs to a single space. -/
def pyNormalize (s : String) : String :=
  String.mk (squeezeSpaces ((pyStrip s.data).map (fun c =>
    let c' := Char.toLower c
    if c' = '_' then ' ' else if pyIsSpace c' then ' ' else c')))

/-- Python `" ".join(xs)`. -/
def joinSp (xs : List String) : String :=
  String.intercalate " " xs

/-- `CANONICAL_CATEGORIES`: the fixed closed set of 11 category labels. -/
def CANONICAL_CATEGORIES : List String := [
  "Municipal - PWD (Roads)",
  "Municipal - Sanitation",
  "Municipal - Horticulture",
  "Municipal - Street Lighting",
  "Municipal - Water & Sewerage",
  "Utility - Power (DISCOM)",
  "State Transport",
  "Pollution Control Board",
  "Police - Local Law Enforcement",
  "Police - Traffic",
  "Uncategorized"]

/-- `_ALIAS_TO_CANONICAL`, in Python dict insertion order. -/
def ALIAS_TO_CANONICAL : List (String × String) := [
  ("municipal - pwd (roads)", "Municipal - PWD (Roads)"),
  ("municipal - pwd roads", "Municipal - PWD (Roads)"),
  ("municipal - pwd (bridges)", "Municipal - PWD (Roads)"),
  ("municipal - sanitation", "Municipal - Sanitation"),
  ("municipal - horticulture", "Municipal - Horticulture"),
  ("municipal - street lighting", "Municipal - Street Lighting"),
  ("municipal - water & sewerage", "Municipal - Water & Sewerage"),
  ("municipal - water and sewerage", "Municipal - Water & Sewerage"),
  ("utility - power (discom)", "Utility - Power (DISCOM)"),
  ("state transport", "State Transport"),
  ("pollution control board", "Pollution Control Board"),
  ("police - local law enforcement", "Police - Local Law Enforcement"),
  ("police - traffic", "Police - Traffic"),
  ("uncategorized", "Uncategorized")]

/-- Body of `canonicalize_label` after normalization: exact alias lookup,
then first bidirectional-substring alias match in table order, else the
sentinel. -/
def canonAux (cleaned : String) : String :=
  match ALIAS_TO_CANONICAL.find? (fun p => p.1 == cleaned) with
  | some p => p.2
  | none =>
    match ALIAS_TO_CANONICAL.find? (fun p => strIn cleaned p.1 || strIn p.1 cleaned) with
    | some p => p.2
    | none => "Uncategorized"

/-- `category_utils.canonicalize_label`. -/
def canonicalize_label (label : String) : String :=
  canonAux (pyNormalize label)

/-- `category_utils.labels_match`. -/
def labels_match (expected predicted : String) : Bool :=
  canonicalize_label expected == canonicalize_label predicted

def ratAdd (a b : ℚ) : ℚ := mkRat (a.num * b.den + b.num * a.den) (a.den * b.den)

def ratSub (a b : ℚ) : ℚ := mkRat (a.num * b.den - b.num * a.den) (a.den * b.den)

def ratMul (a b : ℚ) : ℚ := mkRat (a.num * b.num) (a.den * b.den)

def ratMin (a b : ℚ) : ℚ := if a ≤ b then a else b

/-- Division by 6 (the source's `top_score / 6.0`). -/
def ratDiv6 (a : ℚ) : ℚ := mkRat a.num (a.den * 6)

/-- `_CATEGORY_RULES`: weighted keyword rules, in Python dict insertion
order.  Float weights are written as exact rationals:
`3.0 ↦ mkRat 3 1`, `2.5 ↦ mkRat 5 2`, `2.0 ↦ mkRat 2 1`,
`1.5 ↦ mkRat 3 2`, `1.0 ↦ mkRat 1 1`, `0.5 ↦ mkRat 1 2`,
`0.3 ↦ mkRat 3 10`. -/
def CATEGORY_RULES : List (String × List (List String × ℚ)) := [
  ("Municipal - PWD (Roads)", [
    (["pothole", "potholes"], mkRat 3 1),
    (["road damage", "damaged road", "broken road", "cracked road"], mkRat 3 1),
    (["damaged pavement", "broken pavement", "cracked pavement"], mkRat 5 2),
    (["footpath damage", "broken footpath", "damaged footpath"], mkRat 5 2),
    (["manhole", "manhole cover"], mkRat 2 1),
    (["road crack", "road surface"], mkRat 2 1),
    (["bridge damage", "damaged bridge"], mkRat 2 1),
    (["asphalt", "tar road", "concrete road"], mkRat 1 1),
    (["road", "street", "highway", "lane"], mkRat 3 10)]),
  ("Municipal - Sanitation", [
    (["garbage", "trash", "rubbish", "refuse"], mkRat 3 1),
    (["waste pile", "waste dump", "waste heap"], mkRat 3 1),
    (["overflowing bin", "overflowing trash", "overflowing garbage"], mkRat 3 1),
    (["litter", "littered", "littering"], mkRat 5 2),
    (["dump", "dumped", "dumping"], mkRat 2 1),
    (["dirty toilet", "filthy toilet", "unclean toilet"], mkRat 5 2),
    (["debris", "scattered waste"], mkRat 3 2),
    (["stench", "foul smell", "unhygienic"], mkRat 1 1)]),
  ("Municipal - Horticulture", [
    (["fallen tree", "uprooted tree", "collapsed tree"], mkRat 3 1),
    (["overgrown", "unmaintained park", "neglected park"], mkRat 5 2),
    (["dead plant", "dead plants", "dry plants", "withered"], mkRat 5 2),
    (["broken branch", "tree branch", "branches blocking"], mkRat 2 1),
    (["tree blocking road", "tree fell", "tree on road"], mkRat 3 1),
    (["garden", "park", "greenery", "vegetation"], mkRat 1 2)]),
  ("Municipal - Street Lighting", [
    (["street light", "streetlight", "street lamp"], mkRat 3 1),
    (["lamp post", "lamppost", "light pole"], mkRat 3 1),
    (["broken light", "non-functional light", "damaged light"], mkRat 5 2),
    (["unlit road", "dark road", "dark street", "no lighting"], mkRat 5 2),
    (["bulb", "illumination"], mkRat 1 2)]),
  ("Municipal - Water & Sewerage", [
    (["waterlogging", "waterlogged", "water logging"], mkRat 3 1),
    (["flooded", "flooding", "flood"], mkRat 3 1),
    (["drain overflow", "overflowing drain", "blocked drain"], mkRat 3 1),
    (["sewer overflow", "sewer leak", "sewage"], mkRat 3 1),
    (["pipe leak", "water leak", "leaking pipe", "burst pipe"], mkRat 5 2),
    (["stagnant water", "standing water", "water pooling"], mkRat 5 2),
    (["drainage problem", "drainage issue", "clogged drain"], mkRat 2 1),
    (["water gushing", "water spraying"], mkRat 2 1)]),
  ("Utility - Power (DISCOM)", [
    (["dangling wire", "hanging wire", "loose wire", "fallen wire"], mkRat 3 1),
    (["open transformer", "damaged transformer", "leaking transformer"], mkRat 3 1),
    (["fallen electric pole", "tilted pole", "broken pole"], mkRat 3 1),
    (["exposed wire", "bare wire", "naked cable"], mkRat 5 2),
    (["power cable", "electric cable", "power line"], mkRat 2 1),
    (["sparking", "electrical hazard", "electrocution risk"], mkRat 5 2),
    (["transformer", "electric pole", "utility pole"], mkRat 3 2)]),
  ("Pollution Control Board", [
    (["air pollution", "smoke emission", "thick smoke"], mkRat 3 1),
    (["industrial waste", "factory waste", "effluent"], mkRat 3 1),
    (["open burning", "burning garbage", "burning waste"], mkRat 3 1),
    (["chemical dump", "toxic waste", "hazardous waste"], mkRat 3 1),
    (["pollution", "polluted", "contaminated"], mkRat 2 1),
    (["smoke", "smog", "haze"], mkRat 3 2)]),
  ("Police - Traffic", [
    (["traffic signal", "signal failure", "broken signal"], mkRat 3 1),
    (["traffic jam", "traffic congestion", "gridlock"], mkRat 5 2),
    (["road blockage", "road blocked", "road obstruction"], mkRat 5 2),
    (["traffic"], mkRat 1 2)]),
  ("Police - Local Law Enforcement", [
    (["illegal parking", "wrong parking", "no parking zone"], mkRat 3 1),
    (["encroachment", "footpath encroachment", "pavement encroachment"], mkRat 3 1),
    (["public nuisance", "disturbance", "rowdy"], mkRat 5 2),
    (["footpath blocked", "path blocked", "walkway blocked"], mkRat 2 1),
    (["unauthorized", "illegal occupation", "hawker"], mkRat 3 2)]),
  ("State Transport", [
    (["bus shelter", "bus stop", "damaged bus stop"], mkRat 3 1),
    (["state bus", "broken bus", "damaged bus"], mkRat 3 1),
    (["transport terminal", "bus terminal", "bus depot"], mkRat 5 2)])]

/-- `rule_engine._NON_CIVIC_KEYWORDS`. -/
def NON_CIVIC_KEYWORDS : List String := [
  "selfie", "portrait", "food", "meal", "restaurant", "cartoon", "anime",
  "gaming", "screenshot", "indoor furniture", "appliance", "pet", "animal",
  "beautiful landscape", "clear sky", "family photo", "group photo"]

/-- Normalized vision payload, as consumed by `classify_by_rules` after the
classifier's `setdefault` calls. -/
structure VisionPayload where
  description : String
  visible_objects : List String
  primary_issue : String
  secondary_issue : String
  hazards : List String
  setting : String
deriving DecidableEq

/-- The combined text blob
`f"{desc} {objects} {primary} {secondary} {hazards}"`. -/
def combinedText (p : VisionPayload) : String :=
  p.description ++ " " ++ joinSp p.visible_objects ++ " " ++ p.primary_issue
    ++ " " ++ p.secondary_issue ++ " " ++ joinSp p.hazards

/-- `rule_engine._score_text`: each rule contributes its weight once if any
of its keywords occurs in the lowercased text. -/
def scoreText (text : String) (rules : List (List String × ℚ)) : ℚ :=
  let text_lower := lowerStr text
  rules.foldl
    (fun score r => if r.1.any (fun kw => strIn kw text_lower) then ratAdd score r.2 else score)
    0

/-- All category scores, in rule-table insertion order. -/
def scoresOf (p : VisionPayload) : List (String × ℚ) :=
  CATEGORY_RULES.map (fun cr => (cr.1, scoreText (combinedText p) cr.2))

/-- Insert into a descending-sorted list, before the first element whose
score is not larger — this reproduces the stability of Python's
`sorted(key=lambda x: -x[1])` when driven by `List.foldr`. -/
def insertDesc (x : String × ℚ) : List (String × ℚ) → List (String × ℚ)
  | [] => [x]
  | y :: t => if y.2 > x.2 then y :: insertDesc x t else x :: y :: t

/-- Stable sort by score descending. -/
def sortDesc (l : List (String × ℚ)) : List (String × ℚ) :=
  l.foldr insertDesc []

/-- The ranked score table of a payload. -/
def rankedOf (p : VisionPayload) : List (String × ℚ) :=
  sortDesc (scoresOf p)

/-- `ranked[0] if ranked else ("Uncategorized", 0.0)`. -/
def topOf (p : VisionPayload) : String × ℚ :=
  (rankedOf p).headD ("Uncategorized", 0)

/-- `ranked[1][1] if len(ranked) > 1 else 0.0`. -/
def runnerUpScoreOf (p : VisionPayload) : ℚ :=
  ((rankedOf p)[1]?.map Prod.snd).getD 0

/-- Whether the combined blob contains a non-civic keyword. -/
def isNonCivicBlob (p : VisionPayload) : Bool :=
  NON_CIVIC_KEYWORDS.any (fun kw => strIn kw (lowerStr (combinedText p)))

/-- Round half to even (Python `round` tie behaviour), computed on the
numerator and denominator: `f` is the floor (Euclidean division by the
positive denominator) and `r2` is twice the fractional remainder, compared
against the denominator. -/
def roundHalfEven (q : ℚ) : ℤ :=
  let d : ℤ := (q.den : ℤ)
  let f := q.num / d
  let r2 := 2 * (q.num % d)
  if r2 < d then f
  else if d < r2 then f + 1
  else if f % 2 = 0 then f else f + 1

/-- Python `round(x, 3)`. -/
def round3 (q : ℚ) : ℚ :=
  mkRat (roundHalfEven (ratMul q 1000)) 1000

/-- Result record of `classify_by_rules`. -/
structure RuleResult where
  category : String
  confidence : ℚ
  is_ambiguous : Bool
  scores : List (String × ℚ)
  method : String
deriving DecidableEq

/-- `rule_engine.classify_by_rules`; the locals `ranked`, `top`,
`runner_up_score` of the source appear here through the helper definitions
`rankedOf`, `topOf`, `runnerUpScoreOf`. -/
def classify_by_rules (p : VisionPayload)
    (ambiguity_threshold confidence_gap_threshold : ℚ) : RuleResult :=
  if isNonCivicBlob p then
    ⟨"Uncategorized", mkRat 85 100, false, [], "rule_engine_non_civic"⟩
  else
    let top := topOf p
    let gap := ratSub top.2 (runnerUpScoreOf p)
    let is_ambiguous :=
      decide (top.2 < ambiguity_threshold) || decide (gap < confidence_gap_threshold)
    if top.2 ≤ 0 then
      ⟨"Uncategorized", mkRat 1 10, true, scoresOf p, "rule_engine_no_match"⟩
    else
      let raw_confidence := ratMin (ratDiv6 top.2) 1
      let raw_confidence :=
        if gap < confidence_gap_threshold ∧ 1 < (rankedOf p).length then
          ratMul raw_confidence (mkRat 7 10)
        else raw_confidence
      ⟨top.1, round3 raw_confidence, is_ambiguous, scoresOf p, "rule_engine"⟩

/-- `rule_engine.parse_vision_text_to_payload`. -/
def parse_vision_text_to_payload (text : String) : VisionPayload :=
  ⟨text, [], "", "", [], ""⟩

/-- `Authority` (pydantic model); `level` carries the `AuthorityLevel`
enum's string value. -/
structure Authority where
  id : String
  name : String
  level : String
  domain : String
  escalation_days : ℕ
  parent_authority_id : Option String
deriving DecidableEq

/-- `AUTHORITIES_DB`: the static authority registry, in source order. -/
def AUTHORITIES_DB : List Authority := [
  ⟨"MUNI_PWD", "Public Works Department (PWD)", "Local Municipal Authority",
   "Roads, Bridges, Civil Repairs", 21, some "STATE_CMO"⟩,
  ⟨"MUNI_SANITATION", "Sanitation & Solid Waste Mgmt", "Local Municipal Authority",
   "Garbage, Public Toilets, Cleaning", 7, some "STATE_CMO"⟩,
  ⟨"MUNI_HORTICULTURE", "Horticulture Department", "Local Municipal Authority",
   "Parks, Trees, Greenery", 14, some "STATE_CMO"⟩,
  ⟨"MUNI_LIGHTING", "Street Lighting Dept", "Local Municipal Authority",
   "Street Lights, Electrical Poles", 7, some "UTIL_DISCOM"⟩,
  ⟨"MUNI_WATER", "Water Supply & Sewerage Board", "Local Municipal Authority",
   "Water Supply, Drainage, Sewerage", 10, some "STATE_CMO"⟩,
  ⟨"UTIL_DISCOM", "Power Distribution Company (DISCOM)", "State/Utility Provider",
   "High Voltage Power, Transformers, Grid", 3, some "STATE_CMO"⟩,
  ⟨"UTIL_TRANSPORT", "State Transport Corporation", "State/Utility Provider",
   "Buses, Terminals", 14, some "STATE_CMO"⟩,
  ⟨"UTIL_PCB", "Pollution Control Board", "State/Utility Provider",
   "Industrial Waste, Smoke, Chemical Pollution", 14, some "CENTRAL_DARPG"⟩,
  ⟨"POLICE_LOCAL", "Local Police Station (SHO)", "Safety & Law Enforcement",
   "Law & Order, Illegal Parking, Nuisance", 3, some "STATE_HOME_DEPT"⟩,
  ⟨"POLICE_TRAFFIC", "Traffic Police", "Safety & Law Enforcement",
   "Traffic Signals, Obstructions", 3, some "STATE_HOME_DEPT"⟩,
  ⟨"STATE_CMO", "Chief Minister's Office (Grievance Cell)", "Apex & Oversight Body",
   "State Level Oversight", 30, some "CENTRAL_DARPG"⟩,
  ⟨"CENTRAL_DARPG", "DARPG (Central Govt)", "Apex & Oversight Body",
   "National Oversight", 60, none⟩]

/-- `authorities.get_authority_by_id`: first entry with matching id. -/
def get_authority_by_id (auth_id : String) : Option Authority :=
  AUTHORITIES_DB.find? (fun a => a.id == auth_id)

/-- `CLASSIFIER_TO_AUTHORITY_MAP`, in Python dict insertion order. -/
def CLASSIFIER_TO_AUTHORITY_MAP : List (String × String) := [
  ("Municipal - PWD (Roads)", "MUNI_PWD"),
  ("Municipal - PWD (Bridges)", "MUNI_PWD"),
  ("Municipal - Sanitation", "MUNI_SANITATION"),
  ("Municipal - Horticulture", "MUNI_HORTICULTURE"),
  ("Municipal - Street Lighting", "MUNI_LIGHTING"),
  ("Municipal - Water & Sewerage", "MUNI_WATER"),
  ("Utility - Power (DISCOM)", "UTIL_DISCOM"),
  ("State Transport", "UTIL_TRANSPORT"),
  ("Pollution Control Board", "UTIL_PCB"),
  ("Police - Local Law Enforcement", "POLICE_LOCAL"),
  ("Police - Traffic", "POLICE_TRAFFIC"),
  ("Civil Engineering Dept", "MUNI_PWD"),
  ("Sanitation Dept", "MUNI_SANITATION"),
  ("Horticulture Dept", "MUNI_HORTICULTURE"),
  ("Electricity Dept", "MUNI_LIGHTING"),
  ("Drainage Dept", "MUNI_WATER"),
  ("Pollution Control Dept", "UTIL_PCB"),
  ("Enforcement Dept", "POLICE_LOCAL")]

/-- `CLASSIFIER_TO_AUTHORITY_MAP.get(dept_string)` (all map values are
non-empty, so Python's truthiness test coincides with `Option`). -/
def mapLookup (dept_string : String) : Option String :=
  (CLASSIFIER_TO_AUTHORITY_MAP.find? (fun p => p.1 == dept_string)).map Prod.snd

/-- The keyword-matching fallback chain of
`authorities.get_authority_id_from_dept_string` (steps after the exact
map lookup), on the lowercased department string. -/
def keyword_authority (dept_string : String) : Option String :=
    let ds := lowerStr dept_string
    if strIn "garbage" ds || strIn "trash" ds || strIn "toilet" ds ||
       strIn "sanitation" ds || strIn "waste" ds then some "MUNI_SANITATION"
    else if strIn "road" ds || strIn "pothole" ds || strIn "pavement" ds ||
       strIn "bridge" ds || strIn "civil" ds then some "MUNI_PWD"
    else if strIn "light" ds || strIn "lamp" ds || strIn "dark" ds then
      some "MUNI_LIGHTING"
    else if strIn "water" ds || strIn "drain" ds || strIn "pipe" ds ||
       strIn "leak" ds || strIn "flood" ds then some "MUNI_WATER"
    else if strIn "wire" ds || strIn "cable" ds || strIn "transformer" ds ||
       strIn "electric" ds || strIn "power" ds then some "UTIL_DISCOM"
    else if strIn "tree" ds || strIn "park" ds || strIn "plant" ds then
      some "MUNI_HORTICULTURE"
    else if strIn "bus" ds || strIn "transport" ds || strIn "shelter" ds then
      some "UTIL_TRANSPORT"
    else if strIn "smoke" ds || strIn "pollution" ds || strIn "burning" ds ||
       strIn "fire" ds then some "UTIL_PCB"
    else if strIn "police" ds || strIn "illegal" ds || strIn "encroachment" ds ||
       strIn "parking" ds || strIn "traffic" ds then
      if strIn "traffic" ds || strIn "signal" ds then some "POLICE_TRAFFIC"
      else some "POLICE_LOCAL"
    else none

/-- `authorities.get_authority_id_from_dept_string`: exact map lookup
first, then the keyword-matching fallback chain. -/
def get_authority_id_from_dept_string (dept_string : String) : Option String :=
  match mapLookup dept_string with
  | some auth_id => some auth_id
  | none => keyword_authority dept_string

/-- Result record of `route_authority`. -/
structure RoutingResult where
  authority_id : Option String
  confidence : ℚ
  reason : String
  escalation_parent_authority_id : Option String
deriving DecidableEq

/-- The resolved authority's static parent link
(`authority.parent_authority_id if authority else None`). -/
def parentOf (aid : String) : Option String :=
  ((get_authority_by_id aid).map Authority.parent_authority_id).getD none

/-- `authorities.route_authority`. -/
def route_authority (dept_string : String) : RoutingResult :=
  match mapLookup dept_string with
  | some exact => ⟨some exact, mkRat 95 100, "exact_match", parentOf exact⟩
  | none =>
    match get_authority_id_from_dept_string dept_string with
    | some resolved => ⟨some resolved, mkRat 75 100, "keyword_match", parentOf resolved⟩
    | none => ⟨none, mkRat 2 10, "unmapped", none⟩

/-- The escalation target computed from the complaint's current
`authority_id` and its stored `escalation_parent_authority_id` fallback. -/
def escalate_target (authority_id stored_parent : Option String) : Option String :=
  match authority_id with
  | some aid =>
    match get_authority_by_id aid with
    | some a => a.parent_authority_id
    | none => stored_parent
  | none => stored_parent

/-- The escalation decision: the new current authority on success, or the
endpoint's HTTP 400 "No escalation target available" error. -/
def escalate_complaint_core (authority_id stored_parent : Option String) :
    Except String String :=
  match escalate_target authority_id stored_parent with
  | some parent_id => Except.ok parent_id
  | none => Except.error "No escalation target available"

/-- `max(a, b)` as computed by Python (ties keep the first argument;
on `ℚ` the value coincides with `max`). -/
def ratMax (a b : ℚ) : ℚ := if a ≤ b then b else a

/-- `classifier._NEGATIVE_KEYWORDS` (note: shorter than the rule engine's
`_NON_CIVIC_KEYWORDS`; it lacks "family photo" and "group photo"). -/
def NEGATIVE_KEYWORDS : List String := [
  "selfie", "portrait", "food", "meal", "restaurant", "cartoon", "anime",
  "gaming", "screenshot", "indoor furniture", "appliance", "pet", "animal",
  "beautiful landscape", "clear sky"]

/-- `classifier._KEYWORD_FALLBACK`: ordered keyword-list → category table. -/
def KEYWORD_FALLBACK : List (List String × String) := [
  (["pothole", "road damage", "cracked road", "broken road", "damaged road",
    "damaged pavement", "broken pavement", "footpath damage", "manhole"],
   "Municipal - PWD (Roads)"),
  (["waterlog", "flooded", "flood", "drain overflow", "sewer overflow",
    "pipe leak", "water gushing", "stagnant water", "blocked drain",
    "drainage problem"],
   "Municipal - Water & Sewerage"),
  (["garbage", "trash", "waste", "litter", "dump", "rubbish", "overflowing bin"],
   "Municipal - Sanitation"),
  (["fallen tree", "uprooted tree", "overgrown", "dead plant", "broken branch",
    "tree blocking"],
   "Municipal - Horticulture"),
  (["street light", "lamp post", "unlit road", "broken light", "dark road"],
   "Municipal - Street Lighting"),
  (["dangling wire", "hanging wire", "open transformer", "fallen electric pole",
    "exposed wire", "power cable"],
   "Utility - Power (DISCOM)"),
  (["smoke", "burning", "industrial waste", "air pollution", "open burning"],
   "Pollution Control Board"),
  (["traffic signal", "signal failure", "traffic jam", "road blockage"],
   "Police - Traffic"),
  (["illegal parking", "encroachment", "footpath blocked", "public nuisance"],
   "Police - Local Law Enforcement"),
  (["bus shelter", "state bus", "transport terminal"],
   "State Transport")]

/-- `classifier._keyword_fallback`: first keyword-list with a hit wins. -/
def keyword_fallback (description : String) : String :=
  let desc := lowerStr description
  match KEYWORD_FALLBACK.find? (fun p => p.1.any (fun kw => strIn kw desc)) with
  | some p => p.2
  | none => "Uncategorized"

/-- Python `str.strip()` on a string. -/
def pyStripStr (s : String) : String :=
  String.mk (pyStrip s.data)

/-- The `config.Settings` fields the pipeline consults. -/
structure Settings where
  vision_model : String
  reasoning_model : String
  rule_engine_only : Bool
  unload_after_reasoning : Bool
deriving DecidableEq

/-- Outcome of `json.loads` on the vision response together with the
`setdefault`/`str(...)` normalization: `obj p` is a successfully parsed
object with normalized fields `p`; `decodeFail` is a `JSONDecodeError`
(the raw text then becomes the description via
`parse_vision_text_to_payload`); `bad e` is a response that parses as
JSON but is not an object, making the normalization raise `e` past the
inner handler. -/
inductive VisionParse where
  | obj (payload : VisionPayload)
  | decodeFail
  | bad (e : String)
deriving DecidableEq

/-- Outcome of `json.loads` on the reasoning response plus field
extraction: `objOk` is a parsed JSON object carrying the optional
`department` (after `str(...)`), `confidence` (when `float(...)`
succeeds) and `rationale` fields; `convFail` is a parsed object whose
`confidence` made `float(...)` raise `ValueError`/`TypeError` (caught by
the inner handler); `decodeFail` is a `JSONDecodeError` (also caught);
`nonObj` is valid JSON that is not an object, so `parsed.get` raises an
`AttributeError` that the inner handler does not catch. -/
inductive ReasoningParse where
  | objOk (department : Option String) (confidence : Option ℚ) (rationale : Option String)
  | convFail
  | decodeFail
  | nonObj
deriving DecidableEq

/-- Environment oracle for one `CivicClassifier.classify` call. -/
structure World where
  fileExists : Bool
  imageLoad : Except String Unit
  visionCall : Except String String
  visionParse : VisionParse
  reasoningCall : Except String String
  reasoningParse : ReasoningParse

/-- The returned decision dict (the claim-relevant keys; the success
path's extra audit keys `vision_description`, `vision_payload`,
`raw_category`, `model_used` are not modelled as no claim mentions
them). `error` is `some e` exactly when the dict carries an "error" key. -/
structure Decision where
  department : String
  label : String
  confidence : ℚ
  is_valid : Bool
  method : String
  rationale : String
  error : Option String
  raw_json : String
deriving DecidableEq

/-- The early-return dict when `os.path.exists` fails. -/
def fileNotFoundDecision : Decision :=
  ⟨"Unknown", "Image file not found", 0, false, "error", "file not found", none, ""⟩

/-- The outermost `except` handler's dict, carrying the exception text. -/
def errorDecision (e : String) : Decision :=
  ⟨"Unknown", "Could not classify image", 0, false, "error", "", some e, ""⟩

/-- `f"{x:.1f}"` for the non-negative scores that reach it. -/
def fmt1 (q : ℚ) : String :=
  let n := roundHalfEven (ratMul q 10)
  toString (n / 10) ++ "." ++ toString ((n % 10).natAbs)

/-- `rationale = f"top_score={rule_result['scores'].get(canonical, 0):.1f}"`. -/
def ruleRationale (rr : RuleResult) : String :=
  "top_score=" ++ fmt1 (((rr.scores.find? (fun p => p.1 == rr.category)).map Prod.snd).getD 0)

/-- The vision payload after parsing:  a parsed object is used as-is; on
decode failure the raw text is wrapped as the description; a non-object
raises. -/
def visionPayloadOf (raw_vision_json : String) : VisionParse → Except String VisionPayload
  | .obj p => Except.ok p
  | .decodeFail => Except.ok (parse_vision_text_to_payload raw_vision_json)
  | .bad e => Except.error e

/-- The reasoning step's `(reasoning_label, reasoning_conf, rationale)`
after the inner `try`: a parsed object yields its fields (with defaults
"Uncategorized" / 0.5 / ""); a caught parse failure falls back to the raw
stripped response text as the label with confidence 0.5; a non-object
propagates an `AttributeError`. -/
def reasoningFields (raw_json_str : String) :
    ReasoningParse → Except String (String × ℚ × String)
  | .objOk dept conf rat =>
    Except.ok (dept.getD "Uncategorized", conf.getD (mkRat 1 2), rat.getD "")
  | .convFail => Except.ok (raw_json_str, mkRat 1 2, "")
  | .decodeFail => Except.ok (raw_json_str, mkRat 1 2, "")
  | .nonObj => Except.error "AttributeError"

/-- The `(canonical, model_confidence, method)` state after the rule
engine stage. -/
def ruleTriple (rr : RuleResult) : String × ℚ × String :=
  (rr.category, rr.confidence, rr.method)

/-- The merge policy: use the reasoning result iff its canonicalized label
is not "Uncategorized" or the rule engine resolved to "Uncategorized". -/
def mergeStep (rule_result : RuleResult) (rLabel : String) (rConf : ℚ) :
    String × ℚ × String :=
  if canonicalize_label rLabel ≠ "Uncategorized" ∨
      rule_result.category = "Uncategorized" then
    (canonicalize_label rLabel, rConf, "reasoning")
  else
    ruleTriple rule_result

/-- The final keyword-fallback step: only when still "Uncategorized", and
only adopted when the scan resolves; confidence capped at 0.65. -/
def fallbackStep (cm : String × ℚ × String) (description : String) :
    String × ℚ × String :=
  if cm.1 = "Uncategorized" then
    if keyword_fallback description ≠ "Uncategorized" then
      (keyword_fallback description, ratMin cm.2.1 (mkRat 65 100), "keyword_fallback")
    else cm
  else cm

/-- The validity gate and final dict: `is_valid` iff categorized and no
negative keyword in the description; confidence halved (floored at 0.1)
when invalid. -/
def finishDecision (cm : String × ℚ × String)
    (rationale description raw_json : String) : Decision :=
  let is_non_civic := NEGATIVE_KEYWORDS.any (fun kw => strIn kw (lowerStr description))
  let is_valid := decide (cm.1 ≠ "Uncategorized") && !is_non_civic
  ⟨cm.1, description,
   if is_valid then cm.2.1 else ratMax (ratMul cm.2.1 (mkRat 1 2)) (mkRat 1 10),
   is_valid, cm.2.2, rationale, none, raw_json⟩

/-- The body of the outermost `try` block of `CivicClassifier.classify`,
as a fallible computation over the oracle.  (The source's locals
`raw_vision_json`, `description`, `rule_result`, `raw_json_str` are
inlined.) -/
def classifyBody (s : Settings) (w : World) : Except String Decision :=
  match w.imageLoad with
  | .error e => Except.error e
  | .ok _ =>
  match w.visionCall with
  | .error e => Except.error e
  | .ok visionRaw =>
  match visionPayloadOf (pyStripStr visionRaw) w.visionParse with
  | .error e => Except.error e
  | .ok payload =>
  if (classify_by_rules payload (mkRat 2 1) (mkRat 1 1)).is_ambiguous &&
      !(s.reasoning_model == "") && !s.rule_engine_only then
    match w.reasoningCall with
    | .error e => Except.error e
    | .ok reasoningRaw =>
    match reasoningFields (pyStripStr reasoningRaw) w.reasoningParse with
    | .error e => Except.error e
    | .ok fields =>
      Except.ok (finishDecision
        (fallbackStep
          (mergeStep (classify_by_rules payload (mkRat 2 1) (mkRat 1 1))
            fields.1 fields.2.1)
          payload.description)
        fields.2.2 payload.description (pyStripStr reasoningRaw))
  else
    Except.ok (finishDecision
      (fallbackStep (ruleTriple (classify_by_rules payload (mkRat 2 1) (mkRat 1 1)))
        payload.description)
      (ruleRationale (classify_by_rules payload (mkRat 2 1) (mkRat 1 1)))
      payload.description (pyStripStr visionRaw))

/-- `CivicClassifier.classify`: early file-existence check, then the
`try` body with the outermost handler converting any exception into the
terminal error decision. -/
def classify (s : Settings) (w : World) : Decision :=
  if !w.fileExists then fileNotFoundDecision
  else
    match classifyBody s w with
    | .ok d => d
    | .error e => errorDecision e

/-- The reasoning-reported confidence a given parse outcome yields: the
parsed `confidence` field when present, `0.5` otherwise. -/
def rConfOf : ReasoningParse → ℚ
  | .objOk _ (some c) _ => c
  | _ => mkRat 1 2

/-- The reasoning-reported confidence the pipeline would use on world `w`. -/
def rConfUsed (w : World) : ℚ :=
  rConfOf w.reasoningParse

/-- The label the reasoning step effectively canonicalizes: the parsed
`department` field, or the raw stripped response text on a caught parse
failure. -/
def effectiveReasoningLabel (raw_json_str : String) : ReasoningParse → String
  | .objOk dept _ _ => dept.getD "Uncategorized"
  | _ => raw_json_str

/-- Payload whose combined blob is exactly the phrase "open transformer"
(plus field-separator spaces). -/
def pOpenTransformer : VisionPayload := ⟨"open transformer", [], "", "", [], ""⟩

/-- Payload with the single strong civic keyword "pothole". -/
def pPothole : VisionPayload := ⟨"pothole", [], "", "", [], ""⟩

/-- Payload with a weak civic keyword only ("road", weight 0.3): an
ambiguous rule result with positive top score. -/
def pRoad : VisionPayload := ⟨"road", [], "", "", [], ""⟩

/-- Payload containing both a negative keyword and a civic fallback keyword. -/
def pSelfiePothole : VisionPayload := ⟨"a selfie of a pothole", [], "", "", [], ""⟩

/-- A settings record with the reasoning step enabled. -/
def sDefault : Settings := ⟨"qwen2.5vl:3b", "llama3.2:1b", false, true⟩

/-- World where the rule result is ambiguous and the reasoning response is
a well-formed JSON object with an out-of-range confidence of 2.0. -/
def wAdversarialConf : World :=
  ⟨true, Except.ok (), Except.ok "x", VisionParse.obj pRoad,
   Except.ok "j", ReasoningParse.objOk (some "Municipal - Sanitation")
     (some (mkRat 2 1)) (some "r")⟩

/-- World whose image path does not exist. -/
def wNoFile : World :=
  ⟨false, Except.ok (), Except.ok "", VisionParse.decodeFail,
   Except.ok "", ReasoningParse.decodeFail⟩

/-- World whose vision payload mixes a negative keyword with a civic
keyword; the rule engine short-circuits as non-civic, so the reasoning
step is never reached. -/
def wSelfiePothole : World :=
  ⟨true, Except.ok (), Except.ok "x", VisionParse.obj pSelfiePothole,
   Except.ok "", ReasoningParse.decodeFail⟩

/-- World where the rule result is ambiguous and the reasoning response is
the non-JSON text "police". -/
def wPoliceGarbage : World :=
  ⟨true, Except.ok (), Except.ok "x", VisionParse.obj pRoad,
   Except.ok "police", ReasoningParse.decodeFail⟩

/-- World whose vision model call raises. -/
def wVisionFail : World :=
  ⟨true, Except.ok (), Except.error "boom", VisionParse.decodeFail,
   Except.ok "", ReasoningParse.decodeFail⟩

/-- The decision the pipeline returns on `wSelfiePothole`. -/
def dSelfiePothole : Decision :=
  ⟨"Municipal - PWD (Roads)", "a selfie of a pothole", mkRat 13 40, false,
   "keyword_fallback", "top_score=0.0", none, "x"⟩

/-- The decision the pipeline returns on `wPoliceGarbage`. -/
def dPoliceGarbage : Decision :=
  ⟨"Police - Local Law Enforcement", "road", mkRat 1 2, true,
   "reasoning", "", none, "police"⟩

/-! ## Theorems: supporting lemmas and claim verdicts -/

theorem canonAux_mem (s : String) : canonAux s ∈ CANONICAL_CATEGORIES := by
  unfold canonAux
  cases h₁ : ALIAS_TO_CANONICAL.find? (fun p => p.1 == s) with
  | some p =>
    have hp := List.mem_of_find?_eq_some h₁
    fin_cases hp <;> simp [CANONICAL_CATEGORIES]
  | none =>
    cases h₂ : ALIAS_TO_CANONICAL.find? (fun p => strIn s p.1 || strIn p.1 s) with
    | some p =>
      have hp := List.mem_of_find?_eq_some h₂
      fin_cases hp <;> simp [CANONICAL_CATEGORIES]
    | none => simp [CANONICAL_CATEGORIES]

theorem canonicalize_label_mem (label : String) :
    canonicalize_label label ∈ CANONICAL_CATEGORIES :=
  canonAux_mem _

theorem canonicalize_fixed_on_canonical :
    ∀ c ∈ CANONICAL_CATEGORIES, canonicalize_label c = c := by
  decide

theorem ratAdd_eq (a b : ℚ) : ratAdd a b = a + b := by
  have ha : (a.den : ℚ) ≠ 0 := by exact_mod_cast a.den_nz
  have hb : (b.den : ℚ) ≠ 0 := by exact_mod_cast b.den_nz
  have hA : (a.num : ℚ) = a * a.den := (div_eq_iff ha).mp (Rat.num_div_den a)
  have hB : (b.num : ℚ) = b * b.den := (div_eq_iff hb).mp (Rat.num_div_den b)
  unfold ratAdd
  rw [Rat.mkRat_eq_div]
  push_cast
  field_simp
  rw [hA, hB]
  ring

theorem ratSub_eq (a b : ℚ) : ratSub a b = a - b := by
  have ha : (a.den : ℚ) ≠ 0 := by exact_mod_cast a.den_nz
  have hb : (b.den : ℚ) ≠ 0 := by exact_mod_cast b.den_nz
  have hA : (a.num : ℚ) = a * a.den := (div_eq_iff ha).mp (Rat.num_div_den a)
  have hB : (b.num : ℚ) = b * b.den := (div_eq_iff hb).mp (Rat.num_div_den b)
  unfold ratSub
  rw [Rat.mkRat_eq_div]
  push_cast
  field_simp
  rw [hA, hB]
  ring

theorem ratMul_eq (a b : ℚ) : ratMul a b = a * b := by
  have ha : (a.den : ℚ) ≠ 0 := by exact_mod_cast a.den_nz
  have hb : (b.den : ℚ) ≠ 0 := by exact_mod_cast b.den_nz
  have hA : (a.num : ℚ) = a * a.den := (div_eq_iff ha).mp (Rat.num_div_den a)
  have hB : (b.num : ℚ) = b * b.den := (div_eq_iff hb).mp (Rat.num_div_den b)
  unfold ratMul
  rw [Rat.mkRat_eq_div]
  push_cast
  field_simp
  rw [hA, hB]
  ring

theorem ratMin_eq (a b : ℚ) : ratMin a b = min a b :=
  (min_def a b).symm

theorem ratDiv6_eq (a : ℚ) : ratDiv6 a = a / 6 := by
  have ha : (a.den : ℚ) ≠ 0 := by exact_mod_cast a.den_nz
  have hA : (a.num : ℚ) = a * a.den := (div_eq_iff ha).mp (Rat.num_div_den a)
  unfold ratDiv6
  rw [Rat.mkRat_eq_div]
  push_cast
  field_simp
  rw [hA]
  ring

theorem length_insertDesc (x : String × ℚ) (l : List (String × ℚ)) :
    (insertDesc x l).length = l.length + 1 := by
  induction l with
  | nil => rfl
  | cons y t ih =>
    unfold insertDesc
    split <;> simp [ih]

theorem length_sortDesc (l : List (String × ℚ)) :
    (sortDesc l).length = l.length := by
  unfold sortDesc
  induction l with
  | nil => rfl
  | cons y t ih => simp [length_insertDesc, ih]

theorem rankedOf_length (p : VisionPayload) : (rankedOf p).length = 10 := by
  unfold rankedOf scoresOf
  rw [length_sortDesc]
  simp [CATEGORY_RULES]

set_option maxHeartbeats 2000000 in
/-- C8: `route_authority` returns exact_match/0.95 with the resolved
authority's parent when the label is in the classifier-output→authority
map (in particular "Municipal - Sanitation" → MUNI_SANITATION with parent
STATE_CMO), keyword_match/0.75 when a domain keyword rule fires (with the
traffic/signal override selecting Traffic Police over Local Police), and
none/unmapped/0.2 otherwise. -/
theorem claim_C8_route_authority (s aid : String) :
    (mapLookup s = some aid →
      route_authority s = ⟨some aid, mkRat 95 100, "exact_match", parentOf aid⟩) ∧
    (mapLookup s = none → get_authority_id_from_dept_string s = some aid →
      route_authority s = ⟨some aid, mkRat 75 100, "keyword_match", parentOf aid⟩) ∧
    (mapLookup s = none → get_authority_id_from_dept_string s = none →
      route_authority s = ⟨none, mkRat 2 10, "unmapped", none⟩) ∧
    (keyword_authority s = some "POLICE_TRAFFIC" →
      (strIn "traffic" (lowerStr s) || strIn "signal" (lowerStr s)) = true) ∧
    (keyword_authority s = some "POLICE_LOCAL" →
      (strIn "traffic" (lowerStr s) || strIn "signal" (lowerStr s)) = false) ∧
    route_authority "Municipal - Sanitation" =
      ⟨some "MUNI_SANITATION", mkRat 95 100, "exact_match", some "STATE_CMO"⟩ ∧
    (mkRat 95 100 : ℚ) = 0.95 ∧ (mkRat 75 100 : ℚ) = 0.75 ∧ (mkRat 2 10 : ℚ) = 0.2 := by
  refine ⟨?_, ?_, ?_, ?_, ?_, by decide, by norm_num [Rat.mkRat_eq_div],
    by norm_num [Rat.mkRat_eq_div], by norm_num [Rat.mkRat_eq_div]⟩
  · intro h
    unfold route_authority
    rw [h]
  · intro h h2
    unfold route_authority
    rw [h, h2]
  · intro h h2
    unfold route_authority
    rw [h, h2]
  · intro h2
    simp only [keyword_authority] at h2
    split_ifs at h2 <;> first | assumption | simp at h2
  · intro h2
    simp only [keyword_authority] at h2
    split_ifs at h2 <;>
      first
        | (rename_i hb
           exact Bool.eq_false_iff.mpr hb)
        | simp at h2

theorem claim_C8_route_authority_witness :
    mapLookup "Municipal - Sanitation" = some "MUNI_SANITATION" ∧
    route_authority "Municipal - Sanitation" =
      ⟨some "MUNI_SANITATION", mkRat 95 100, "exact_match", some "STATE_CMO"⟩ ∧
    route_authority "Streetlight issue" =
      ⟨some "MUNI_LIGHTING", mkRat 75 100, "keyword_match", some "UTIL_DISCOM"⟩ := by
  refine ⟨by decide, ?_, ?_⟩
  · have h := (claim_C8_route_authority "Municipal - Sanitation" "MUNI_SANITATION").1
      (by decide)
    rw [h]
    decide
  · have h := (claim_C8_route_authority "Streetlight issue" "MUNI_LIGHTING").2.1
      (by decide) (by decide)
    rw [h]
    decide

/-- C9: escalation from a complaint's current authority succeeds with the
authority's parent as the new current authority exactly when the parent
link is present, and otherwise fails with the explicit "No escalation
target available" error; POLICE_LOCAL escalates to STATE_HOME_DEPT and
CENTRAL_DARPG (no parent) fails. -/
theorem claim_C9_escalation (aid : String) (a : Authority) (stored : Option String)
    (ha : get_authority_by_id aid = some a) :
    (∀ p, escalate_complaint_core (some aid) stored = Except.ok p ↔
       a.parent_authority_id = some p) ∧
    (a.parent_authority_id = none →
       escalate_complaint_core (some aid) stored =
         Except.error "No escalation target available") ∧
    escalate_complaint_core (some "POLICE_LOCAL") stored = Except.ok "STATE_HOME_DEPT" ∧
    escalate_complaint_core (some "CENTRAL_DARPG") stored =
      Except.error "No escalation target available" := by
  refine ⟨?_, ?_, rfl, rfl⟩
  · intro p
    simp only [escalate_complaint_core, escalate_target, ha]
    cases h : a.parent_authority_id <;> simp [h]
  · intro h
    simp only [escalate_complaint_core, escalate_target, ha, h]

theorem claim_C9_escalation_witness :
    escalate_complaint_core (some "POLICE_LOCAL") none = Except.ok "STATE_HOME_DEPT" ∧
    escalate_complaint_core (some "CENTRAL_DARPG") none =
      Except.error "No escalation target available" :=
  ⟨(claim_C9_escalation "POLICE_LOCAL" ⟨"POLICE_LOCAL", "Local Police Station (SHO)",
      "Safety & Law Enforcement", "Law & Order, Illegal Parking, Nuisance", 3,
      some "STATE_HOME_DEPT"⟩ none (by decide)).2.2.1,
   (claim_C9_escalation "CENTRAL_DARPG" ⟨"CENTRAL_DARPG", "DARPG (Central Govt)",
      "Apex & Oversight Body", "National Oversight", 60, none⟩ none (by decide)).2.2.2⟩

theorem ratMax_eq (a b : ℚ) : ratMax a b = max a b :=
  (max_def a b).symm

theorem mem_insertDesc {x y : String × ℚ} {l : List (String × ℚ)}
    (h : x ∈ insertDesc y l) : x = y ∨ x ∈ l := by
  induction l with
  | nil => simpa [insertDesc] using h
  | cons z t ih =>
    unfold insertDesc at h
    split at h
    · rcases List.mem_cons.mp h with h' | h'
      · exact Or.inr (List.mem_cons.mpr (Or.inl h'))
      · rcases ih h' with h'' | h''
        · exact Or.inl h''
        · exact Or.inr (List.mem_cons.mpr (Or.inr h''))
    · rcases List.mem_cons.mp h with h' | h'
      · exact Or.inl h'
      · exact Or.inr h'

theorem mem_sortDesc {x : String × ℚ} {l : List (String × ℚ)}
    (h : x ∈ sortDesc l) : x ∈ l := by
  induction l with
  | nil => simp [sortDesc] at h
  | cons z t ih =>
    rcases mem_insertDesc (l := sortDesc t) h with h' | h'
    · exact List.mem_cons.mpr (Or.inl h')
    · exact List.mem_cons.mpr (Or.inr (ih h'))

theorem scoresOf_fst_mem {x : String × ℚ} {p : VisionPayload}
    (h : x ∈ scoresOf p) : x.1 ∈ CANONICAL_CATEGORIES := by
  unfold scoresOf at h
  rcases List.mem_map.mp h with ⟨cr, hcr, hx⟩
  have hall : ∀ cr ∈ CATEGORY_RULES, cr.1 ∈ CANONICAL_CATEGORIES := by decide
  rw [← hx]
  exact hall cr hcr

theorem topOf_mem (p : VisionPayload) : (topOf p).1 ∈ CANONICAL_CATEGORIES := by
  unfold topOf
  cases hr : rankedOf p with
  | nil =>
    have := rankedOf_length p
    rw [hr] at this
    simp at this
  | cons x t =>
    have hx : x ∈ rankedOf p := by rw [hr]; exact List.mem_cons_self x t
    exact scoresOf_fst_mem (mem_sortDesc hx)

theorem classify_by_rules_category_mem (p : VisionPayload) (a g : ℚ) :
    (classify_by_rules p a g).category ∈ CANONICAL_CATEGORIES := by
  unfold classify_by_rules
  cases h1 : isNonCivicBlob p with
  | true => simp [CANONICAL_CATEGORIES]
  | false =>
    simp only [Bool.false_eq_true, if_false]
    by_cases h2 : (topOf p).2 ≤ 0
    · rw [if_pos h2]
      simp [CANONICAL_CATEGORIES]
    · rw [if_neg h2]
      simpa using topOf_mem p

theorem roundHalfEven_nonneg (q : ℚ) (h : 0 ≤ q) : 0 ≤ roundHalfEven q := by
  have hden : (0 : ℤ) < (q.den : ℤ) := by exact_mod_cast q.den_pos
  have hnum : 0 ≤ q.num := Rat.num_nonneg.mpr h
  have hf : 0 ≤ q.num / (q.den : ℤ) := Int.ediv_nonneg hnum (by omega)
  simp only [roundHalfEven]
  split_ifs <;> omega

theorem roundHalfEven_le (q : ℚ) (n : ℤ) (h : q ≤ n) : roundHalfEven q ≤ n := by
  have hdenq : (0 : ℚ) < (q.den : ℚ) := by exact_mod_cast q.den_pos
  have hden : (0 : ℤ) < (q.den : ℤ) := by exact_mod_cast q.den_pos
  have hqnum : (q.num : ℚ) = q * (q.den : ℚ) :=
    (div_eq_iff (ne_of_gt hdenq)).mp (Rat.num_div_den q)
  have hsplit : (q.den : ℤ) * (q.num / (q.den : ℤ)) + q.num % (q.den : ℤ) = q.num :=
    Int.ediv_add_emod q.num (q.den : ℤ)
  have hr0 : 0 ≤ q.num % (q.den : ℤ) := Int.emod_nonneg _ (by omega)
  have hcast := congrArg (fun z : ℤ => (z : ℚ)) hsplit
  push_cast at hcast
  rw [hqnum] at hcast
  have hr0q : (0 : ℚ) ≤ ((q.num % (q.den : ℤ) : ℤ) : ℚ) := by exact_mod_cast hr0
  have hfle : ((q.num / (q.den : ℤ) : ℤ) : ℚ) ≤ q := by nlinarith
  have hfn : q.num / (q.den : ℤ) ≤ n := by
    have : ((q.num / (q.den : ℤ) : ℤ) : ℚ) ≤ (n : ℚ) := le_trans hfle h
    exact_mod_cast this
  have hstrict : 0 < q.num % (q.den : ℤ) → q.num / (q.den : ℤ) + 1 ≤ n := by
    intro hrpos
    have hrposq : (0 : ℚ) < ((q.num % (q.den : ℤ) : ℤ) : ℚ) := by exact_mod_cast hrpos
    have hlt : ((q.num / (q.den : ℤ) : ℤ) : ℚ) < q := by nlinarith
    have : ((q.num / (q.den : ℤ) : ℤ) : ℚ) < (n : ℚ) := lt_of_lt_of_le hlt h
    have : q.num / (q.den : ℤ) < n := by exact_mod_cast this
    omega
  simp only [roundHalfEven]
  split_ifs with h1 h2 h3
  · exact hfn
  · exact hstrict (by omega)
  · exact hfn
  · exact hstrict (by omega)

theorem round3_bounds (q : ℚ) (h0 : 0 ≤ q) (h1 : q ≤ 1) :
    0 ≤ round3 q ∧ round3 q ≤ 1 := by
  unfold round3
  rw [Rat.mkRat_eq_div, ratMul_eq]
  constructor
  · apply div_nonneg _ (by norm_num)
    exact_mod_cast roundHalfEven_nonneg (q * 1000) (by positivity)
  · rw [div_le_one (by norm_num)]
    have h2 : q * 1000 ≤ ((1000 : ℤ) : ℚ) := by push_cast; nlinarith
    exact_mod_cast roundHalfEven_le (q * 1000) 1000 h2

theorem classify_by_rules_conf_bounds (p : VisionPayload) (a g : ℚ) :
    0 ≤ (classify_by_rules p a g).confidence ∧
    (classify_by_rules p a g).confidence ≤ 1 := by
  unfold classify_by_rules
  cases h1 : isNonCivicBlob p with
  | true => norm_num [Rat.mkRat_eq_div]
  | false =>
    simp only [Bool.false_eq_true, if_false]
    by_cases h2 : (topOf p).2 ≤ 0
    · rw [if_pos h2]
      norm_num [Rat.mkRat_eq_div]
    · rw [if_neg h2]
      have htop : 0 < (topOf p).2 := lt_of_not_le h2
      have ha : 0 ≤ min ((topOf p).2 / 6) 1 :=
        le_min (div_nonneg (le_of_lt htop) (by norm_num)) (by norm_num)
      have hb : min ((topOf p).2 / 6) 1 ≤ 1 := min_le_right _ _
      by_cases h3 : ratSub (topOf p).2 (runnerUpScoreOf p) < g ∧ 1 < (rankedOf p).length
      · rw [if_pos h3]
        simp only [ratMin_eq, ratDiv6_eq, ratMul_eq]
        have h710 : (mkRat 7 10 : ℚ) = 7 / 10 := Rat.mkRat_eq_div ..
        rw [h710]
        set m := min ((topOf p).2 / 6) 1 with hm
        exact round3_bounds _ (mul_nonneg ha (by norm_num))
          (mul_le_one₀ hb (by norm_num) (by norm_num))
      · rw [if_neg h3]
        simp only [ratMin_eq, ratDiv6_eq]
        exact round3_bounds _ ha hb

theorem keyword_fallback_mem (description : String) :
    keyword_fallback description ∈ CANONICAL_CATEGORIES := by
  simp only [keyword_fallback]
  cases h : KEYWORD_FALLBACK.find?
      (fun p => p.1.any (fun kw => strIn kw (lowerStr description))) with
  | none => simp [CANONICAL_CATEGORIES]
  | some pr =>
    have hp := List.mem_of_find?_eq_some h
    fin_cases hp <;> simp [CANONICAL_CATEGORIES]

theorem mergeStep_props (rr : RuleResult) (l : String) (c : ℚ)
    (hmem : rr.category ∈ CANONICAL_CATEGORIES)
    (h0 : 0 ≤ rr.confidence) (h1 : rr.confidence ≤ 1)
    (hc0 : 0 ≤ c) (hc1 : c ≤ 1) :
    (mergeStep rr l c).1 ∈ CANONICAL_CATEGORIES ∧
    0 ≤ (mergeStep rr l c).2.1 ∧ (mergeStep rr l c).2.1 ≤ 1 := by
  unfold mergeStep
  split_ifs with h
  · exact ⟨canonicalize_label_mem _, hc0, hc1⟩
  · exact ⟨hmem, h0, h1⟩

theorem fallbackStep_props (cm : String × ℚ × String) (d : String)
    (hmem : cm.1 ∈ CANONICAL_CATEGORIES) (h0 : 0 ≤ cm.2.1) (h1 : cm.2.1 ≤ 1) :
    (fallbackStep cm d).1 ∈ CANONICAL_CATEGORIES ∧
    0 ≤ (fallbackStep cm d).2.1 ∧ (fallbackStep cm d).2.1 ≤ 1 := by
  unfold fallbackStep
  split_ifs with h hk
  · refine ⟨keyword_fallback_mem d, ?_, ?_⟩
    · simp only [ratMin_eq]
      exact le_min h0 (by norm_num [Rat.mkRat_eq_div])
    · simp only [ratMin_eq]
      exact le_trans (min_le_left _ _) h1
  · exact ⟨hmem, h0, h1⟩
  · exact ⟨hmem, h0, h1⟩

theorem finishDecision_props (cm : String × ℚ × String) (rat desc rj : String)
    (h0 : 0 ≤ cm.2.1) (h1 : cm.2.1 ≤ 1) :
    (finishDecision cm rat desc rj).department = cm.1 ∧
    (finishDecision cm rat desc rj).method = cm.2.2 ∧
    0 ≤ (finishDecision cm rat desc rj).confidence ∧
    (finishDecision cm rat desc rj).confidence ≤ 1 := by
  simp only [finishDecision]
  refine ⟨trivial, trivial, ?_, ?_⟩
  · split_ifs with h
    · exact h0
    · simp only [ratMax_eq, ratMul_eq]
      have h110 : (0 : ℚ) ≤ mkRat 1 10 := by norm_num [Rat.mkRat_eq_div]
      exact le_trans h110 (le_max_right _ _)
  · split_ifs with h
    · exact h1
    · simp only [ratMax_eq, ratMul_eq]
      apply max_le
      · have h12 : (mkRat 1 2 : ℚ) = 1 / 2 := Rat.mkRat_eq_div ..
        rw [h12]
        nlinarith
      · norm_num [Rat.mkRat_eq_div]

theorem reasoningFields_conf (raw : String) (rp : ReasoningParse)
    (f : String × ℚ × String) (h : reasoningFields raw rp = Except.ok f) :
    f.2.1 = rConfOf rp := by
  cases rp with
  | objOk dept conf rat =>
    cases conf <;> (injection h with h2; rw [← h2]; rfl)
  | convFail => injection h with h2; rw [← h2]; rfl
  | decodeFail => injection h with h2; rw [← h2]; rfl
  | nonObj => exact Except.noConfusion h

/-- The combined fallback and validity stage preserves category
membership and confidence bounds. -/
theorem finish_props_all (cm : String × ℚ × String) (rat desc rj : String)
    (hmem : cm.1 ∈ CANONICAL_CATEGORIES) (h0 : 0 ≤ cm.2.1) (h1 : cm.2.1 ≤ 1) :
    (finishDecision (fallbackStep cm desc) rat desc rj).department ∈ CANONICAL_CATEGORIES ∧
    0 ≤ (finishDecision (fallbackStep cm desc) rat desc rj).confidence ∧
    (finishDecision (fallbackStep cm desc) rat desc rj).confidence ≤ 1 := by
  have hf := fallbackStep_props cm desc hmem h0 h1
  have hfin := finishDecision_props (fallbackStep cm desc) rat desc rj hf.2.1 hf.2.2
  rw [hfin.1]
  exact ⟨hf.1, hfin.2.2.1, hfin.2.2.2⟩

/-- Every successfully returned pipeline decision has a category drawn
from the canonical set and, provided any reasoning-reported confidence is
within `[0,1]`, a confidence within `[0,1]`. -/
theorem classifyBody_ok_props (s : Settings) (w : World) (d : Decision)
    (h : classifyBody s w = Except.ok d)
    (h0 : 0 ≤ rConfUsed w) (h1 : rConfUsed w ≤ 1) :
    d.department ∈ CANONICAL_CATEGORIES ∧ 0 ≤ d.confidence ∧ d.confidence ≤ 1 := by
  unfold classifyBody at h
  split at h
  · exact Except.noConfusion h
  · split at h
    · exact Except.noConfusion h
    · split at h
      · exact Except.noConfusion h
      · split at h
        · split at h
          · exact Except.noConfusion h
          · split at h
            · exact Except.noConfusion h
            · rename_i fields hfields
              injection h with h2
              subst h2
              have hconf := reasoningFields_conf _ _ _ hfields
              have hc0 : 0 ≤ fields.2.1 := by
                rw [hconf]
                unfold rConfUsed at h0
                exact h0
              have hc1 : fields.2.1 ≤ 1 := by
                rw [hconf]
                unfold rConfUsed at h1
                exact h1
              apply finish_props_all
              · exact (mergeStep_props _ _ _ (classify_by_rules_category_mem _ _ _)
                  (classify_by_rules_conf_bounds _ _ _).1
                  (classify_by_rules_conf_bounds _ _ _).2 hc0 hc1).1
              · exact (mergeStep_props _ _ _ (classify_by_rules_category_mem _ _ _)
                  (classify_by_rules_conf_bounds _ _ _).1
                  (classify_by_rules_conf_bounds _ _ _).2 hc0 hc1).2.1
              · exact (mergeStep_props _ _ _ (classify_by_rules_category_mem _ _ _)
                  (classify_by_rules_conf_bounds _ _ _).1
                  (classify_by_rules_conf_bounds _ _ _).2 hc0 hc1).2.2
        · injection h with h2
          subst h2
          apply finish_props_all
          · exact classify_by_rules_category_mem _ _ _
          · exact (classify_by_rules_conf_bounds _ _ _).1
          · exact (classify_by_rules_conf_bounds _ _ _).2

/-- C10: `canonicalize_label` is idempotent — every output is a fixed point
after one application. -/
theorem claim_C10_canonicalize_idempotent (L : String) :
    canonicalize_label (canonicalize_label L) = canonicalize_label L :=
  canonicalize_fixed_on_canonical _ (canonicalize_label_mem L)

/-- C6 counterexample: the empty string — whose normalization is empty —
canonicalizes to "Municipal - PWD (Roads)", not to the sentinel
"Uncategorized", because the empty string is a substring of every alias and
the first alias-table entry wins. -/
theorem claim_C6_counterexample :
    canonicalize_label "" = "Municipal - PWD (Roads)" ∧
    canonicalize_label "" ≠ "Uncategorized" := by
  decide

/-- C6 (amended): every raw label whose normalization is the empty string
canonicalizes to "Municipal - PWD (Roads)", the value of the first
alias-table entry, since the empty string is contained in every alias. -/
theorem claim_C6_amended_empty_label (L : String) (h : pyNormalize L = "") :
    canonicalize_label L = "Municipal - PWD (Roads)" := by
  unfold canonicalize_label
  rw [h]
  decide

theorem claim_C6_amended_empty_label_witness :
    canonicalize_label "   " = "Municipal - PWD (Roads)" :=
  claim_C6_amended_empty_label "   " (by decide)

/-- C3: for every payload not short-circuited as non-civic,
`classify_by_rules` returns `is_ambiguous = (top < ambiguityThreshold) OR
(top - runnerUp < gapThreshold)` and
`confidence = round3(min(top/6, 1) * (0.7 when the gap condition holds))`
whenever the top score is positive, and the fixed
Uncategorized / 0.1 / ambiguous / rule_engine_no_match result when the top
score is not positive. -/
theorem claim_C3_rule_scoring (p : VisionPayload) (ambT gapT : ℚ)
    (hnc : isNonCivicBlob p = false) :
    (0 < (topOf p).2 →
      (classify_by_rules p ambT gapT).is_ambiguous =
        (decide ((topOf p).2 < ambT) ||
         decide ((topOf p).2 - runnerUpScoreOf p < gapT)) ∧
      (classify_by_rules p ambT gapT).confidence =
        round3 (if (topOf p).2 - runnerUpScoreOf p < gapT
                then min ((topOf p).2 / 6) 1 * 0.7
                else min ((topOf p).2 / 6) 1)) ∧
    ((topOf p).2 ≤ 0 →
      classify_by_rules p ambT gapT =
        ⟨"Uncategorized", mkRat 1 10, true, scoresOf p, "rule_engine_no_match"⟩) ∧
    (mkRat 1 10 : ℚ) = 0.1 := by
  have hlen : 1 < (rankedOf p).length := by rw [rankedOf_length]; norm_num
  have h710 : (mkRat 7 10 : ℚ) = 0.7 := by norm_num [Rat.mkRat_eq_div]
  refine ⟨?_, ?_, by norm_num [Rat.mkRat_eq_div]⟩
  · intro hpos
    unfold classify_by_rules
    simp only [hnc, Bool.false_eq_true, if_false, if_neg (not_le.mpr hpos),
      ratSub_eq, and_iff_left hlen, ratMul_eq, ratMin_eq, ratDiv6_eq, h710]
    exact ⟨trivial, trivial⟩
  · intro hle
    unfold classify_by_rules
    simp only [hnc, Bool.false_eq_true, if_false, if_pos hle]

theorem claim_C3_rule_scoring_witness :
    (0 < (topOf pPothole).2 →
      (classify_by_rules pPothole 2 1).is_ambiguous =
        (decide ((topOf pPothole).2 < 2) ||
         decide ((topOf pPothole).2 - runnerUpScoreOf pPothole < 1)) ∧
      (classify_by_rules pPothole 2 1).confidence =
        round3 (if (topOf pPothole).2 - runnerUpScoreOf pPothole < 1
                then min ((topOf pPothole).2 / 6) 1 * 0.7
                else min ((topOf pPothole).2 / 6) 1)) ∧
    ((topOf pPothole).2 ≤ 0 →
      classify_by_rules pPothole 2 1 =
        ⟨"Uncategorized", mkRat 1 10, true, scoresOf pPothole, "rule_engine_no_match"⟩) ∧
    (mkRat 1 10 : ℚ) = 0.1 :=
  claim_C3_rule_scoring pPothole 2 1 (by decide)

/-- C7 counterexample: for the payload whose blob is exactly
"open transformer", the top score is 4.5 — not 3.0 as claimed — and the
confidence is 0.75, not ≈ 0.5, because the blob also matches the generic
"transformer" rule of weight 1.5. -/
theorem claim_C7_counterexample :
    (topOf pOpenTransformer).2 = mkRat 9 2 ∧
    (mkRat 9 2 : ℚ) ≠ 3 ∧
    (classify_by_rules pOpenTransformer 2 1).confidence = mkRat 3 4 ∧
    (mkRat 3 4 : ℚ) ≠ 0.5 :=
  ⟨by decide, by norm_num [Rat.mkRat_eq_div], by decide,
   by norm_num [Rat.mkRat_eq_div]⟩

/-- C7 (amended): for a vision payload whose combined text is exactly the
strong rule phrase "open transformer" (weight 3.0) and nothing else, the
phrase additionally matches the generic "transformer" rule (weight 1.5), so
`classify_by_rules` yields top score 4.5 in category
"Utility - Power (DISCOM)", `is_ambiguous = false`, and confidence 0.75. -/
theorem claim_C7_amended_open_transformer :
    topOf pOpenTransformer = ("Utility - Power (DISCOM)", mkRat 9 2) ∧
    (mkRat 9 2 : ℚ) = 4.5 ∧
    (classify_by_rules pOpenTransformer 2 1).category = "Utility - Power (DISCOM)" ∧
    (classify_by_rules pOpenTransformer 2 1).is_ambiguous = false ∧
    (classify_by_rules pOpenTransformer 2 1).confidence = mkRat 3 4 ∧
    (mkRat 3 4 : ℚ) = 0.75 :=
  ⟨by decide, by norm_num [Rat.mkRat_eq_div], by decide, by decide, by decide,
   by norm_num [Rat.mkRat_eq_div]⟩

theorem finishDecision_invalid (cm : String × ℚ × String) (rat desc rj : String)
    (hneg : NEGATIVE_KEYWORDS.any (fun kw => strIn kw (lowerStr desc)) = true) :
    (finishDecision cm rat desc rj).is_valid = false := by
  simp [finishDecision, hneg]

theorem adoption_shape (rr : RuleResult) (l : String) (c : ℚ) (rat desc rj : String)
    (hne : canonicalize_label l ≠ "Uncategorized") :
    (finishDecision (fallbackStep (mergeStep rr l c) desc) rat desc rj).department =
      canonicalize_label l ∧
    (finishDecision (fallbackStep (mergeStep rr l c) desc) rat desc rj).method =
      "reasoning" := by
  constructor <;> simp [mergeStep, fallbackStep, finishDecision, hne]

theorem retention_shape (rr : RuleResult) (l : String) (c : ℚ) (rat desc rj : String)
    (hequ : canonicalize_label l = "Uncategorized")
    (hrne : rr.category ≠ "Uncategorized") :
    (finishDecision (fallbackStep (mergeStep rr l c) desc) rat desc rj).department =
      rr.category ∧
    (finishDecision (fallbackStep (mergeStep rr l c) desc) rat desc rj).method =
      rr.method := by
  constructor <;> simp [mergeStep, fallbackStep, finishDecision, ruleTriple, hequ, hrne]

theorem reasoningFields_label (raw : String) (rp : ReasoningParse)
    (f : String × ℚ × String) (h : reasoningFields raw rp = Except.ok f) :
    f.1 = effectiveReasoningLabel raw rp := by
  cases rp with
  | objOk dept conf rat => injection h with h2; rw [← h2]; rfl
  | convFail => injection h with h2; rw [← h2]; rfl
  | decodeFail => injection h with h2; rw [← h2]; rfl
  | nonObj => exact Except.noConfusion h

/-- C5: `CivicClassifier.classify` never propagates an exception to its
caller: it is a total function, and whenever the try-block body fails with
exception text `e` (the file existed, so the body ran), it returns the
terminal decision with category "Unknown", confidence 0,
`is_valid = false`, method "error", carrying the exception text. -/
theorem claim_C5_error_absorption (s : Settings) (w : World) (e : String)
    (hfile : w.fileExists = true)
    (herr : classifyBody s w = Except.error e) :
    classify s w = errorDecision e ∧
    (classify s w).department = "Unknown" ∧
    (classify s w).confidence = 0 ∧
    (classify s w).is_valid = false ∧
    (classify s w).method = "error" ∧
    (classify s w).error = some e := by
  have hc : classify s w = errorDecision e := by
    unfold classify
    simp only [hfile, Bool.not_true, Bool.false_eq_true, if_false, herr]
  refine ⟨hc, ?_, ?_, ?_, ?_, ?_⟩ <;> rw [hc] <;> rfl

theorem claim_C5_error_absorption_witness :
    classify sDefault wVisionFail = errorDecision "boom" ∧
    (classify sDefault wVisionFail).department = "Unknown" ∧
    (classify sDefault wVisionFail).confidence = 0 ∧
    (classify sDefault wVisionFail).is_valid = false ∧
    (classify sDefault wVisionFail).method = "error" ∧
    (classify sDefault wVisionFail).error = some "boom" :=
  claim_C5_error_absorption sDefault wVisionFail "boom" rfl rfl

/-- C1 counterexample: an adversarial reasoning response with confidence
2.0 is adopted unclamped, so the final decision's confidence is 2 ∉ [0,1];
and on the missing-file path the returned category is the sentinel
"Unknown", which is not one of the 11 canonical values. -/
theorem claim_C1_counterexample :
    (classify sDefault wAdversarialConf).confidence = 2 ∧
    ¬ (classify sDefault wAdversarialConf).confidence ≤ 1 ∧
    (classify sDefault wNoFile).department = "Unknown" ∧
    "Unknown" ∉ CANONICAL_CATEGORIES :=
  ⟨by decide, by decide, by decide, by decide⟩

/-- C1 (amended): `canonicalize_label` and `classify_by_rules` always
return one of the 11 canonical categories and the rule-engine confidence
lies in [0,1]; every decision returned by the pipeline body carries a
category from the canonical set, and its confidence lies in [0,1]
provided the adopted reasoning-reported confidence does (error-path
decisions instead carry the sentinel "Unknown" with confidence 0). -/
theorem claim_C1_amended_closed_set (L : String) (p : VisionPayload) (a g : ℚ)
    (s : Settings) (w : World) (d : Decision)
    (hok : classifyBody s w = Except.ok d)
    (h0 : 0 ≤ rConfUsed w) (h1 : rConfUsed w ≤ 1) :
    canonicalize_label L ∈ CANONICAL_CATEGORIES ∧
    (classify_by_rules p a g).category ∈ CANONICAL_CATEGORIES ∧
    0 ≤ (classify_by_rules p a g).confidence ∧
    (classify_by_rules p a g).confidence ≤ 1 ∧
    d.department ∈ CANONICAL_CATEGORIES ∧
    0 ≤ d.confidence ∧ d.confidence ≤ 1 := by
  have hp := classifyBody_ok_props s w d hok h0 h1
  exact ⟨canonicalize_label_mem L, classify_by_rules_category_mem p a g,
    (classify_by_rules_conf_bounds p a g).1, (classify_by_rules_conf_bounds p a g).2,
    hp.1, hp.2.1, hp.2.2⟩

theorem claim_C1_amended_closed_set_witness :
    canonicalize_label "x" ∈ CANONICAL_CATEGORIES ∧
    (classify_by_rules pPothole 2 1).category ∈ CANONICAL_CATEGORIES ∧
    0 ≤ (classify_by_rules pPothole 2 1).confidence ∧
    (classify_by_rules pPothole 2 1).confidence ≤ 1 ∧
    dSelfiePothole.department ∈ CANONICAL_CATEGORIES ∧
    0 ≤ dSelfiePothole.confidence ∧ dSelfiePothole.confidence ≤ 1 :=
  claim_C1_amended_closed_set "x" pPothole 2 1 sDefault wSelfiePothole
    dSelfiePothole rfl (by decide) (by decide)

/-- C2 counterexample: for the blob "a selfie of a pothole" the rule
engine does short-circuit as non-civic, but the pipeline's keyword
fallback then overrides the category with "Municipal - PWD (Roads)" and
method `keyword_fallback` — the civic keyword fallback does override the
non-civic short-circuit. -/
theorem claim_C2_counterexample :
    isNonCivicBlob pSelfiePothole = true ∧
    (classify sDefault wSelfiePothole).department = "Municipal - PWD (Roads)" ∧
    (classify sDefault wSelfiePothole).department ≠ "Uncategorized" ∧
    (classify sDefault wSelfiePothole).method = "keyword_fallback" ∧
    (classify sDefault wSelfiePothole).method ≠ "rule_engine_non_civic" :=
  ⟨by decide, by decide, by decide, by decide, by decide⟩

/-- C2 (amended): when the combined blob contains a negative keyword,
`classify_by_rules` short-circuits to Uncategorized / 0.85 /
not-ambiguous / `rule_engine_non_civic` with no civic rules evaluated
(empty score table); in the full pipeline the keyword fallback may still
override that category when the description contains a civic fallback
keyword, but the final decision has `is_valid = false` whenever the
description itself contains a negative keyword. -/
theorem claim_C2_amended_non_civic (p : VisionPayload) (a g : ℚ)
    (s : Settings) (w : World) (d : Decision)
    (hp : isNonCivicBlob p = true) :
    classify_by_rules p a g =
      ⟨"Uncategorized", mkRat 85 100, false, [], "rule_engine_non_civic"⟩ ∧
    (mkRat 85 100 : ℚ) = 0.85 ∧
    (w.visionParse = VisionParse.obj p →
      NEGATIVE_KEYWORDS.any (fun kw => strIn kw (lowerStr p.description)) = true →
      classifyBody s w = Except.ok d → d.is_valid = false) := by
  refine ⟨?_, by norm_num [Rat.mkRat_eq_div], ?_⟩
  · unfold classify_by_rules
    rw [hp]
    rfl
  · intro hv hneg hok
    unfold classifyBody at hok
    split at hok
    · exact Except.noConfusion hok
    · split at hok
      · exact Except.noConfusion hok
      · split at hok
        · rename_i e heq
          rw [hv] at heq
          exact Except.noConfusion heq
        · rename_i payload heq
          rw [hv] at heq
          injection heq with heq2
          subst heq2
          split at hok
          · split at hok
            · exact Except.noConfusion hok
            · split at hok
              · exact Except.noConfusion hok
              · injection hok with h2
                subst h2
                exact finishDecision_invalid _ _ _ _ hneg
          · injection hok with h2
            subst h2
            exact finishDecision_invalid _ _ _ _ hneg

theorem claim_C2_amended_non_civic_witness :
    classify_by_rules pSelfiePothole 2 1 =
      ⟨"Uncategorized", mkRat 85 100, false, [], "rule_engine_non_civic"⟩ ∧
    (mkRat 85 100 : ℚ) = 0.85 ∧
    (wSelfiePothole.visionParse = VisionParse.obj pSelfiePothole →
      NEGATIVE_KEYWORDS.any
        (fun kw => strIn kw (lowerStr pSelfiePothole.description)) = true →
      classifyBody sDefault wSelfiePothole = Except.ok dSelfiePothole →
      dSelfiePothole.is_valid = false) :=
  claim_C2_amended_non_civic pSelfiePothole 2 1 sDefault wSelfiePothole
    dSelfiePothole (by decide)

/-- C4 counterexample: with an ambiguous civic rule result
("Municipal - PWD (Roads)") and the non-JSON reasoning response "police"
(a parse failure), the raw text is canonicalized and adopted: the decision
is "Police - Local Law Enforcement" with method "reasoning" — the
rule-engine result is not retained on parse failure. -/
theorem claim_C4_counterexample :
    (classify_by_rules pRoad (mkRat 2 1) (mkRat 1 1)).category =
      "Municipal - PWD (Roads)" ∧
    (classify_by_rules pRoad (mkRat 2 1) (mkRat 1 1)).is_ambiguous = true ∧
    wPoliceGarbage.reasoningParse = ReasoningParse.decodeFail ∧
    (classify sDefault wPoliceGarbage).department =
      "Police - Local Law Enforcement" ∧
    (classify sDefault wPoliceGarbage).method = "reasoning" ∧
    (classify sDefault wPoliceGarbage).department ≠ "Municipal - PWD (Roads)" :=
  ⟨by decide, by decide, by decide, by decide, by decide, by decide⟩

/-- C4 (amended): when the reasoning step runs and the response is not a
JSON non-object, the merge adopts the reasoning result (category and
method "reasoning") iff the effective label — the parsed `department`
field, or on a caught parse failure the raw response text — canonicalizes
to something other than "Uncategorized", or the rule result was
"Uncategorized"; otherwise the rule-engine category and method are
retained.  A JSON-valid non-object response instead raises an uncaught
`AttributeError`, turning the whole decision into the error sentinel. -/
theorem claim_C4_amended_merge (p : VisionPayload) (s : Settings) (w : World)
    (d : Decision) (vraw rraw : String)
    (himg : w.imageLoad = Except.ok ())
    (hvc : w.visionCall = Except.ok vraw)
    (hvp : w.visionParse = VisionParse.obj p)
    (hgate : ((classify_by_rules p (mkRat 2 1) (mkRat 1 1)).is_ambiguous &&
        !(s.reasoning_model == "") && !s.rule_engine_only) = true)
    (hrc : w.reasoningCall = Except.ok rraw) :
    (w.reasoningParse ≠ ReasoningParse.nonObj →
      classifyBody s w = Except.ok d →
      (canonicalize_label (effectiveReasoningLabel (pyStripStr rraw) w.reasoningParse)
          ≠ "Uncategorized" →
        d.department =
          canonicalize_label (effectiveReasoningLabel (pyStripStr rraw) w.reasoningParse) ∧
        d.method = "reasoning") ∧
      (canonicalize_label (effectiveReasoningLabel (pyStripStr rraw) w.reasoningParse)
          = "Uncategorized" →
        (classify_by_rules p (mkRat 2 1) (mkRat 1 1)).category ≠ "Uncategorized" →
        d.department = (classify_by_rules p (mkRat 2 1) (mkRat 1 1)).category ∧
        d.method = (classify_by_rules p (mkRat 2 1) (mkRat 1 1)).method)) ∧
    (w.reasoningParse = ReasoningParse.nonObj →
      classifyBody s w = Except.error "AttributeError") := by
  constructor
  · intro hnp hok
    unfold classifyBody at hok
    split at hok
    · exact Except.noConfusion hok
    · split at hok
      · exact Except.noConfusion hok
      · split at hok
        · rename_i e heq
          rw [hvp] at heq
          exact Except.noConfusion heq
        · rename_i payload heq
          rw [hvp] at heq
          injection heq with heq2
          subst heq2
          split at hok
          · split at hok
            · rename_i e heq2
              rw [hrc] at heq2
              exact Except.noConfusion heq2
            · rename_i reasoningRaw heq2
              rw [hrc] at heq2
              injection heq2 with heq3
              subst heq3
              split at hok
              · rename_i e heq3
                cases hrp : w.reasoningParse with
                | objOk dept conf rat => rw [hrp] at heq3; exact Except.noConfusion heq3
                | convFail => rw [hrp] at heq3; exact Except.noConfusion heq3
                | decodeFail => rw [hrp] at heq3; exact Except.noConfusion heq3
                | nonObj => exact absurd hrp hnp
              · rename_i fields heq3
                injection hok with h2
                subst h2
                have hl := reasoningFields_label _ _ _ heq3
                rw [← hl]
                constructor
                · intro hne
                  exact adoption_shape _ _ _ _ _ _ hne
                · intro hequ hrne
                  exact retention_shape _ _ _ _ _ _ hequ hrne
          · rename_i hcond
            rw [hgate] at hcond
            exact absurd rfl hcond
  · intro hnp
    unfold classifyBody
    rw [himg, hvc, hvp]
    simp only [visionPayloadOf, hgate, if_true]
    rw [hrc, hnp]
    simp [reasoningFields]

theorem claim_C4_amended_merge_witness :
    (wPoliceGarbage.reasoningParse ≠ ReasoningParse.nonObj →
      classifyBody sDefault wPoliceGarbage = Except.ok dPoliceGarbage →
      (canonicalize_label (effectiveReasoningLabel (pyStripStr "police")
          wPoliceGarbage.reasoningParse) ≠ "Uncategorized" →
        dPoliceGarbage.department =
          canonicalize_label (effectiveReasoningLabel (pyStripStr "police")
            wPoliceGarbage.reasoningParse) ∧
        dPoliceGarbage.method = "reasoning") ∧
      (canonicalize_label (effectiveReasoningLabel (pyStripStr "police")
          wPoliceGarbage.reasoningParse) = "Uncategorized" →
        (classify_by_rules pRoad (mkRat 2 1) (mkRat 1 1)).category ≠ "Uncategorized" →
        dPoliceGarbage.department =
          (classify_by_rules pRoad (mkRat 2 1) (mkRat 1 1)).category ∧
        dPoliceGarbage.method =
          (classify_by_rules pRoad (mkRat 2 1) (mkRat 1 1)).method)) ∧
    (wPoliceGarbage.reasoningParse = ReasoningParse.nonObj →
      classifyBody sDefault wPoliceGarbage = Except.error "AttributeError") :=
  claim_C4_amended_merge pRoad sDefault wPoliceGarbage dPoliceGarbage "x" "police"
    rfl rfl rfl (by decide) rfl

end JanSunwai
